import Mathlib

/-!
Verification of the soccer-board canvas interaction engine.

This file gives a shallow embedding of the board engine found in the
repository (the absolute-position HTML board variants and the rAF-preview
variant in src/lib/board/HtmlBoard.tsx) and proves or refutes the spec's
claims about it.  JavaScript numbers are modelled as rationals; all the
arithmetic performed by the engine is addition, subtraction, halving, min
and max, so rationals are an exact model on the inputs of interest.
Optional / non-finite widths and heights are modelled as `Option ℚ`
(`none` covers both an absent field and a non-finite stored value; the
engine treats the two identically via its Number.isFinite guard).
-/

namespace SoccerBoard

/-- Default card width in the part_001 / part_003 board (DEFAULT_W). -/
def DEFAULT_W : ℚ := 260

/-- Default card height in the part_001 / part_003 board (DEFAULT_H). -/
def DEFAULT_H : ℚ := 92

/-- Minimum card width on resize (MIN_W). -/
def MIN_W : ℚ := 110

/-- Minimum card height on resize (MIN_H). -/
def MIN_H : ℚ := 48

/-- Minimum board-object width on resize (OBJ_MIN_W, part_003). -/
def OBJ_MIN_W : ℚ := 80

/-- Minimum board-object height on resize (OBJ_MIN_H, part_003). -/
def OBJ_MIN_H : ℚ := 40

/-- Default card width in src/lib/board/HtmlBoard.tsx (DEFAULT_W there). -/
def LIB_DEFAULT_W : ℚ := 280

/-- Default card height in src/lib/board/HtmlBoard.tsx (DEFAULT_H there). -/
def LIB_DEFAULT_H : ℚ := 96

/-- clamp(n, min, max) = Math.max(min, Math.min(max, n)).  The binders are
renamed lo / hi because min and max are the ambient lattice operations. -/
def clamp (n lo hi : ℚ) : ℚ := max lo (min hi n)

/-- The roster payload carried by a drag (PlayerPayload).  In the source the
object is produced by JSON.parse, so every field may be absent; the board
engine itself only ever inspects id and name, but the remaining roster
fields are carried along unchanged. -/
structure PlayerPayload where
  id : Option String := none
  name : Option String := none
  grade : Option String := none
  returning : Option String := none
  primary : Option String := none
  likelihood : Option String := none
  pos1 : Option String := none
  pos2 : Option String := none
  notes : Option String := none
  pictureUrl : Option String := none
deriving DecidableEq

/-- A placed roster card (PlacedPlayer of part_001 / part_003): optional
width and height, `none` meaning absent-or-non-finite. -/
structure PlacedPlayer where
  id : String
  x : ℚ
  y : ℚ
  w : Option ℚ := none
  h : Option ℚ := none
  player : PlayerPayload := {}
deriving DecidableEq

/-- Board-object kind (lane | text | note). -/
inductive ObjKind | lane | text | note
deriving DecidableEq

/-- A board annotation object (BoardObject of part_003). -/
structure BoardObject where
  id : String
  kind : ObjKind
  x : ℚ
  y : ℚ
  w : ℚ
  h : ℚ
  title : Option String := none
  text : Option String := none
  color : Option String := none
deriving DecidableEq

/-- Effective width of a placed card: Number.isFinite(p.w) ? p.w : DEFAULT_W. -/
def effW (p : PlacedPlayer) : ℚ := p.w.getD DEFAULT_W

/-- Effective height of a placed card: Number.isFinite(p.h) ? p.h : DEFAULT_H. -/
def effH (p : PlacedPlayer) : ℚ := p.h.getD DEFAULT_H

/-- Per-entity origin snapshot stored in the DragState (x, y, w, h at
gesture start). -/
structure Origin where
  x : ℚ
  y : ℚ
  w : ℚ
  h : ℚ
deriving DecidableEq

/-- The origin snapshot beginMove / beginResize takes of a card: position as
stored, width and height defaulted when absent or non-finite. -/
def snapshotOrigin (p : PlacedPlayer) : Origin :=
  { x := p.x, y := p.y, w := effW p, h := effH p }

/-- The origin record built in beginMove (part_001 lines 265-275): for each
id in the gesture's id list, the snapshot of the first card with that id,
absent when the id is not found or not part of the gesture. -/
def beginMoveOrigins (ids : List String) (placed : List PlacedPlayer) :
    String → Option Origin :=
  fun i =>
    if i ∈ ids then (placed.find? (fun p => p.id = i)).map snapshotOrigin
    else none

/-- One card under a move commit (part_001 onPointerMove lines 376-384):
position is the origin position plus the pointer delta, clamped per axis
into the canvas, and the origin width/height are written back. -/
def moveStep (o : Origin) (dx dy cw ch : ℚ) (p : PlacedPlayer) : PlacedPlayer :=
  { p with
    x := clamp (o.x + dx) 0 (cw - o.w)
    y := clamp (o.y + dy) 0 (ch - o.h)
    w := some o.w
    h := some o.h }

/-- The full list committed by a move pointer-move (part_001 lines 376-386):
cards without an origin snapshot pass through untouched. -/
def moveCommit (origin : String → Option Origin) (dx dy cw ch : ℚ)
    (placed : List PlacedPlayer) : List PlacedPlayer :=
  placed.map fun p =>
    match origin p.id with
    | none => p
    | some o => moveStep o dx dy cw ch p

/-- The list committed by a resize pointer-move (part_001 lines 389-397):
only the card whose id matches gets the new clamped width and height; its
position and every other card are untouched. -/
def resizeCommit (id : String) (o : Origin) (dx dy cw ch : ℚ)
    (placed : List PlacedPlayer) : List PlacedPlayer :=
  let newW := clamp (o.w + dx) MIN_W (cw - o.x)
  let newH := clamp (o.h + dy) MIN_H (ch - o.y)
  placed.map fun p => if p.id = id then { p with w := some newW, h := some newH } else p

/-- One board object under a move commit (part_003 lines 580-586). -/
def objMoveStep (oo : Origin) (dx dy cw ch : ℚ) (o : BoardObject) : BoardObject :=
  { o with
    x := clamp (oo.x + dx) 0 (cw - oo.w)
    y := clamp (oo.y + dy) 0 (ch - oo.h) }

/-- The object list committed by a resize pointer-move (part_003 lines
605-610): only the matching object gets the new clamped size. -/
def objResizeCommit (id : String) (oo : Origin) (dx dy cw ch : ℚ)
    (objects : List BoardObject) : List BoardObject :=
  let newW := clamp (oo.w + dx) OBJ_MIN_W (cw - oo.x)
  let newH := clamp (oo.h + dy) OBJ_MIN_H (ch - oo.y)
  objects.map fun o => if o.id = id then { o with w := newW, h := newH } else o

/-- The single resized card inside resizeCommit: width and height replaced
by the clamped values, everything else (in particular the position)
untouched. -/
def resizeStep (o : Origin) (dx dy cw ch : ℚ) (p : PlacedPlayer) : PlacedPlayer :=
  { p with
    w := some (clamp (o.w + dx) MIN_W (cw - o.x))
    h := some (clamp (o.h + dy) MIN_H (ch - o.y)) }

/-- The single resized object inside objResizeCommit. -/
def objResizeStep (oo : Origin) (dx dy cw ch : ℚ) (o : BoardObject) : BoardObject :=
  { o with
    w := clamp (oo.w + dx) OBJ_MIN_W (cw - oo.x)
    h := clamp (oo.h + dy) OBJ_MIN_H (ch - oo.y) }

theorem resizeCommit_eq_map (id : String) (o : Origin) (dx dy cw ch : ℚ)
    (placed : List PlacedPlayer) :
    resizeCommit id o dx dy cw ch placed =
      placed.map fun p => if p.id = id then resizeStep o dx dy cw ch p else p := rfl

theorem objResizeCommit_eq_map (id : String) (oo : Origin) (dx dy cw ch : ℚ)
    (objects : List BoardObject) :
    objResizeCommit id oo dx dy cw ch objects =
      objects.map fun b => if b.id = id then objResizeStep oo dx dy cw ch b else b := rfl

/-! The drag-payload decoders.  JSON.parse is a platform primitive, not code
of this repository, so the decoders are parametric in a parse function
`String → Option PlayerPayload`: `some p` models a successful parse to a
payload object, `none` models a parse failure.  (A successful parse to a
non-object JSON value also terminates the fallback chain in the source and
is then discarded by the caller's falsiness check; the claims only concern
object payloads, which this model covers exactly.) -/

/-- parseDragPayload of part_001 lines 116-129 / part_003 lines 234-247:
take the first non-empty channel (custom, application/json, text/plain in
that order) and parse it; a parse failure returns null without trying the
remaining channels. -/
def parseDragPayload (parse : String → Option PlayerPayload)
    (rawCustom rawJson rawText : String) : Option PlayerPayload :=
  let raw := if rawCustom ≠ "" then rawCustom
             else if rawJson ≠ "" then rawJson
             else rawText
  if raw = "" then none else parse raw

/-- readPayload of src/lib/board/HtmlBoard.tsx lines 72-95: try each
non-empty channel in order (custom, application/json, text/plain) and
return the first successful parse; parse failures fall through to the next
channel; if nothing qualifies return null. -/
def readPayload (parse : String → Option PlayerPayload)
    (rawCustom rawJson rawText : String) : Option PlayerPayload :=
  match (if rawCustom = "" then none else parse rawCustom) with
  | some p => some p
  | none =>
    match (if rawJson = "" then none else parse rawJson) with
    | some p => some p
    | none =>
      match (if rawText = "" then none else parse rawText) with
      | some p => some p
      | none => none

/-- onDrop of part_001 lines 142-171 (success path logic): refuse when not
in edit mode or when the payload does not decode; otherwise append a card
of the default size centered on the drop point and clamped into the
canvas.  The generated id (timestamp + random suffix in the source) is
passed in as genId. -/
def onDropBoard (parse : String → Option PlayerPayload) (editMode : Bool)
    (rawCustom rawJson rawText : String) (ptx pty cw ch : ℚ) (genId : String)
    (placed : List PlacedPlayer) : Option (List PlacedPlayer) :=
  if editMode = false then none
  else
    match parseDragPayload parse rawCustom rawJson rawText with
    | none => none
    | some payload =>
        some (placed ++ [{ id := genId
                           x := clamp (ptx - DEFAULT_W / 2) 0 (cw - DEFAULT_W)
                           y := clamp (pty - DEFAULT_H / 2) 0 (ch - DEFAULT_H)
                           w := some DEFAULT_W
                           h := some DEFAULT_H
                           player := payload }])

/-- The literal text of the JSON document consisting of an empty object. -/
def rawEmptyObj : String := "\x7b\x7d"

/-- The literal text of the JSON document assigning name "A". -/
def rawNameA : String := "\x7b\"name\":\"A\"\x7d"

/-- The payload object denoted by rawNameA. -/
def payloadA : PlayerPayload := { name := some "A" }

/-- Behaviour of the platform JSON.parse on the two concrete JSON documents
used in the concrete examples below, restricted to the payload fields the
engine reads: the empty object parses to a payload with neither name nor
id, the second document to a payload with name "A", and anything else is
treated as failing to parse.  The decoders above are parametric in the
parse function, so every theorem quantified over parse also instantiates
to the real JSON.parse. -/
def parseStub (s : String) : Option PlayerPayload :=
  if s = rawEmptyObj then some {}
  else if s = rawNameA then some payloadA
  else none

/-! Basic clamp lemmas shared by several proofs. -/

theorem le_clamp (n lo hi : ℚ) : lo ≤ clamp n lo hi := le_max_left _ _

theorem clamp_le (n lo hi : ℚ) (h : lo ≤ hi) : clamp n lo hi ≤ hi :=
  max_le h (min_le_left _ _)

theorem clamp_of_hi_lt_lo (n lo hi : ℚ) (h : hi < lo) : clamp n lo hi = lo :=
  max_eq_left ((min_le_left _ _).trans h.le)

theorem clamp_eq_self (n lo hi : ℚ) (h1 : lo ≤ n) (h2 : n ≤ hi) :
    clamp n lo hi = n := by
  unfold clamp
  rw [min_eq_right h2]
  exact max_eq_right h1

/-- The record returned by rectNorm (part_003 lines 217-223). -/
structure NormRect where
  left : ℚ
  top : ℚ
  right : ℚ
  bottom : ℚ
  w : ℚ
  h : ℚ
deriving DecidableEq

/-- rectNorm of part_003: normalize two arbitrary diagonal corners into a
left/top/right/bottom rectangle via per-axis min/max. -/
def rectNorm (x1 y1 x2 y2 : ℚ) : NormRect :=
  let left := min x1 x2
  let top := min y1 y2
  let right := max x1 x2
  let bottom := max y1 y2
  { left := left, top := top, right := right, bottom := bottom
    w := right - left, h := bottom - top }

/-- A plain left/top/right/bottom rectangle as passed to rectIntersects. -/
structure SRect where
  left : ℚ
  top : ℚ
  right : ℚ
  bottom : ℚ
deriving DecidableEq

/-- rectIntersects of part_003 lines 225-227: closed-boundary overlap test
(touching rectangles count as intersecting). -/
def rectIntersects (a b : SRect) : Bool :=
  !(decide (b.left > a.right) || decide (b.right < a.left) ||
    decide (b.top > a.bottom) || decide (b.bottom < a.top))

/-- Bounding rectangle of a placed card as built in the box-select release
handler (part_003 lines 653-657), with defaulted width/height. -/
def playerRect (p : PlacedPlayer) : SRect :=
  { left := p.x, top := p.y, right := p.x + effW p, bottom := p.y + effH p }

/-- Bounding rectangle of a board object (part_003 line 660). -/
def objectRect (o : BoardObject) : SRect :=
  { left := o.x, top := o.y, right := o.x + o.w, bottom := o.y + o.h }

/-- The selection rectangle handed to rectIntersects on release. -/
def selRect (r : NormRect) : SRect :=
  { left := r.left, top := r.top, right := r.right, bottom := r.bottom }

/-- The new selection computed on release of a box-select session (part_003
onPointerUp lines 636-666): a degenerate box (both sides under 6) clears
the selection; otherwise the selection becomes the ids of all cards and
objects whose bounding rectangles intersect the normalized box, in
iteration order (cards first), independent of the prior selection. -/
def boxSelectUp (players : List PlacedPlayer) (objects : List BoardObject)
    (x1 y1 x2 y2 : ℚ) : List String :=
  let r := rectNorm x1 y1 x2 y2
  if r.w < 6 ∧ r.h < 6 then []
  else
    (players.filter fun p => rectIntersects (playerRect p) (selRect r)).map PlacedPlayer.id
      ++ (objects.filter fun o => rectIntersects (objectRect o) (selRect r)).map BoardObject.id

theorem rectNorm_comm (x1 y1 x2 y2 : ℚ) :
    rectNorm x1 y1 x2 y2 = rectNorm x2 y2 x1 y1 := by
  simp [rectNorm, min_comm, max_comm]

/-- C10: clamp with inverted bounds (max < min) returns the lower bound, so
every committed move position is nonnegative, even for an entity wider
than the canvas — but for such an entity the upper-bound half of the
clamping invariant (x + w ≤ canvasWidth) fails. -/
theorem clamp_lower_bound_wins :
    (∀ n lo hi : ℚ, hi < lo → clamp n lo hi = lo)
    ∧ (∀ (o : Origin) (dx dy cw ch : ℚ) (p : PlacedPlayer),
        0 ≤ (moveStep o dx dy cw ch p).x ∧ 0 ≤ (moveStep o dx dy cw ch p).y)
    ∧ (∀ (o : Origin) (dx dy cw ch : ℚ) (p : PlacedPlayer),
        cw < o.w →
        effW (moveStep o dx dy cw ch p) = o.w ∧
        cw < (moveStep o dx dy cw ch p).x + o.w) := by
  refine ⟨fun n lo hi h => clamp_of_hi_lt_lo n lo hi h, ?_, ?_⟩
  · intro o dx dy cw ch p
    exact ⟨le_clamp _ _ _, le_clamp _ _ _⟩
  · intro o dx dy cw ch p h
    have hx : (0 : ℚ) ≤ (moveStep o dx dy cw ch p).x := le_clamp _ _ _
    refine ⟨by simp [moveStep, effW], by linarith⟩

/-- Witness for clamp_lower_bound_wins at concrete inputs: inverted bounds
(-3 < 0), and a 4000-wide entity on a 3000-wide canvas. -/
theorem clamp_lower_bound_wins_witness :
    clamp 7 0 (-3) = 0
    ∧ 0 ≤ (moveStep ⟨0, 0, 4000, 92⟩ 5 5 3000 2000 { id := "a", x := 0, y := 0 }).x
    ∧ 3000 < (moveStep ⟨0, 0, 4000, 92⟩ 5 5 3000 2000 { id := "a", x := 0, y := 0 }).x + 4000 :=
  ⟨clamp_lower_bound_wins.1 7 0 (-3) (by norm_num),
   (clamp_lower_bound_wins.2.1 ⟨0, 0, 4000, 92⟩ 5 5 3000 2000 { id := "a", x := 0, y := 0 }).1,
   (clamp_lower_bound_wins.2.2 ⟨0, 0, 4000, 92⟩ 5 5 3000 2000 { id := "a", x := 0, y := 0 }
     (by norm_num)).2⟩

/-- C1 (amended): a move commit keeps each entity's rectangle inside the
canvas whenever the entity is no larger than the canvas (cards and board
objects alike); a resize commit keeps the rectangle inside the canvas
provided the entity's origin position lies inside the canvas with room
for the minimum size — the resize commit never changes the position, so
the width/height precondition of the original claim alone does not
suffice (see resize_negative_origin_cex). -/
theorem move_resize_clamping :
    (∀ (o : Origin) (dx dy cw ch : ℚ) (p : PlacedPlayer),
        o.w ≤ cw → o.h ≤ ch →
        0 ≤ (moveStep o dx dy cw ch p).x ∧ 0 ≤ (moveStep o dx dy cw ch p).y ∧
        (moveStep o dx dy cw ch p).x + effW (moveStep o dx dy cw ch p) ≤ cw ∧
        (moveStep o dx dy cw ch p).y + effH (moveStep o dx dy cw ch p) ≤ ch)
    ∧ (∀ (oo : Origin) (dx dy cw ch : ℚ) (b : BoardObject),
        b.w = oo.w → b.h = oo.h → oo.w ≤ cw → oo.h ≤ ch →
        0 ≤ (objMoveStep oo dx dy cw ch b).x ∧ 0 ≤ (objMoveStep oo dx dy cw ch b).y ∧
        (objMoveStep oo dx dy cw ch b).x + (objMoveStep oo dx dy cw ch b).w ≤ cw ∧
        (objMoveStep oo dx dy cw ch b).y + (objMoveStep oo dx dy cw ch b).h ≤ ch)
    ∧ (∀ (o : Origin) (dx dy cw ch : ℚ) (p : PlacedPlayer),
        p.x = o.x → p.y = o.y →
        0 ≤ o.x → 0 ≤ o.y → o.x + MIN_W ≤ cw → o.y + MIN_H ≤ ch →
        0 ≤ (resizeStep o dx dy cw ch p).x ∧ 0 ≤ (resizeStep o dx dy cw ch p).y ∧
        (resizeStep o dx dy cw ch p).x + effW (resizeStep o dx dy cw ch p) ≤ cw ∧
        (resizeStep o dx dy cw ch p).y + effH (resizeStep o dx dy cw ch p) ≤ ch)
    ∧ (∀ (oo : Origin) (dx dy cw ch : ℚ) (b : BoardObject),
        b.x = oo.x → b.y = oo.y →
        0 ≤ oo.x → 0 ≤ oo.y → oo.x + OBJ_MIN_W ≤ cw → oo.y + OBJ_MIN_H ≤ ch →
        0 ≤ (objResizeStep oo dx dy cw ch b).x ∧ 0 ≤ (objResizeStep oo dx dy cw ch b).y ∧
        (objResizeStep oo dx dy cw ch b).x + (objResizeStep oo dx dy cw ch b).w ≤ cw ∧
        (objResizeStep oo dx dy cw ch b).y + (objResizeStep oo dx dy cw ch b).h ≤ ch) := by
  refine ⟨?_, ?_, ?_, ?_⟩
  · intro o dx dy cw ch p hw hh
    have hx := clamp_le (o.x + dx) 0 (cw - o.w) (by linarith)
    have hy := clamp_le (o.y + dy) 0 (ch - o.h) (by linarith)
    refine ⟨le_clamp _ _ _, le_clamp _ _ _, ?_, ?_⟩
    · simp only [moveStep, effW, Option.getD_some]
      linarith
    · simp only [moveStep, effH, Option.getD_some]
      linarith
  · intro oo dx dy cw ch b hbw hbh hw hh
    have hx := clamp_le (oo.x + dx) 0 (cw - oo.w) (by linarith)
    have hy := clamp_le (oo.y + dy) 0 (ch - oo.h) (by linarith)
    refine ⟨le_clamp _ _ _, le_clamp _ _ _, ?_, ?_⟩
    · simp only [objMoveStep]
      rw [hbw]
      linarith
    · simp only [objMoveStep]
      rw [hbh]
      linarith
  · intro o dx dy cw ch p hpx hpy hx hy hxw hyh
    have hw := clamp_le (o.w + dx) MIN_W (cw - o.x) (by linarith)
    have hh := clamp_le (o.h + dy) MIN_H (ch - o.y) (by linarith)
    refine ⟨?_, ?_, ?_, ?_⟩
    · simp only [resizeStep]
      rw [hpx]; exact hx
    · simp only [resizeStep]
      rw [hpy]; exact hy
    · simp only [resizeStep, effW, Option.getD_some]
      rw [hpx]; linarith
    · simp only [resizeStep, effH, Option.getD_some]
      rw [hpy]; linarith
  · intro oo dx dy cw ch b hbx hby hx hy hxw hyh
    have hw := clamp_le (oo.w + dx) OBJ_MIN_W (cw - oo.x) (by linarith)
    have hh := clamp_le (oo.h + dy) OBJ_MIN_H (ch - oo.y) (by linarith)
    refine ⟨?_, ?_, ?_, ?_⟩
    · simp only [objResizeStep]
      rw [hbx]; exact hx
    · simp only [objResizeStep]
      rw [hby]; exact hy
    · simp only [objResizeStep]
      rw [hbx]; linarith
    · simp only [objResizeStep]
      rw [hby]; linarith

/-- Witness for move_resize_clamping: one concrete card move and one
concrete card resize, hypotheses discharged numerically. -/
theorem move_resize_clamping_witness :
    (0 ≤ (moveStep ⟨10, 20, 260, 92⟩ (-100) 5 3000 2000 { id := "a", x := 0, y := 0 }).x
      ∧ 0 ≤ (moveStep ⟨10, 20, 260, 92⟩ (-100) 5 3000 2000 { id := "a", x := 0, y := 0 }).y
      ∧ (moveStep ⟨10, 20, 260, 92⟩ (-100) 5 3000 2000 { id := "a", x := 0, y := 0 }).x
          + effW (moveStep ⟨10, 20, 260, 92⟩ (-100) 5 3000 2000 { id := "a", x := 0, y := 0 }) ≤ 3000
      ∧ (moveStep ⟨10, 20, 260, 92⟩ (-100) 5 3000 2000 { id := "a", x := 0, y := 0 }).y
          + effH (moveStep ⟨10, 20, 260, 92⟩ (-100) 5 3000 2000 { id := "a", x := 0, y := 0 }) ≤ 2000)
    ∧ (0 ≤ (resizeStep ⟨10, 20, 260, 92⟩ 5000 5000 3000 2000
          { id := "a", x := 10, y := 20 }).x
      ∧ 0 ≤ (resizeStep ⟨10, 20, 260, 92⟩ 5000 5000 3000 2000
          { id := "a", x := 10, y := 20 }).y
      ∧ (resizeStep ⟨10, 20, 260, 92⟩ 5000 5000 3000 2000
          { id := "a", x := 10, y := 20 }).x
          + effW (resizeStep ⟨10, 20, 260, 92⟩ 5000 5000 3000 2000
              { id := "a", x := 10, y := 20 }) ≤ 3000
      ∧ (resizeStep ⟨10, 20, 260, 92⟩ 5000 5000 3000 2000
          { id := "a", x := 10, y := 20 }).y
          + effH (resizeStep ⟨10, 20, 260, 92⟩ 5000 5000 3000 2000
              { id := "a", x := 10, y := 20 }) ≤ 2000) :=
  ⟨move_resize_clamping.1 ⟨10, 20, 260, 92⟩ (-100) 5 3000 2000 { id := "a", x := 0, y := 0 }
     (by norm_num) (by norm_num),
   move_resize_clamping.2.2.1 ⟨10, 20, 260, 92⟩ 5000 5000 3000 2000
     { id := "a", x := 10, y := 20 } rfl rfl (by norm_num) (by norm_num)
     (by norm_num [MIN_W]) (by norm_num [MIN_H])⟩

/-- Counterexample to C1 as stated: a resize gesture on a card whose width
(110) and height (48) are well inside the 3000×2000 canvas but whose
position is x = -10 commits a rectangle with x = -10 < 0, because the
resize commit never touches the position. -/
theorem resize_negative_origin_cex :
    effW { id := "a", x := -10, y := 0, w := some 110, h := some 48 } ≤ 3000
    ∧ effH { id := "a", x := -10, y := 0, w := some 110, h := some 48 } ≤ 2000
    ∧ ((resizeCommit "a"
          (snapshotOrigin { id := "a", x := -10, y := 0, w := some 110, h := some 48 })
          0 0 3000 2000
          [{ id := "a", x := -10, y := 0, w := some 110, h := some 48 }]).map
            PlacedPlayer.x) = [-10]
    ∧ ¬ (0 ≤ (-10 : ℚ)) := by
  refine ⟨by norm_num [effW], by norm_num [effH], ?_, by norm_num⟩
  simp [resizeCommit]

/-- C3: a successful drop appends a placed card whose position is the drop
point minus half the default size on each axis, clamped into canvas
bounds; at world point (500,500) on a 3000×2000 canvas the committed
position is (370, 454). -/
theorem drop_centered_clamped (parse : String → Option PlayerPayload)
    (rawCustom rawJson rawText : String) (ptx pty cw ch : ℚ) (genId : String)
    (placed : List PlacedPlayer) (payload : PlayerPayload)
    (hp : parseDragPayload parse rawCustom rawJson rawText = some payload) :
    onDropBoard parse true rawCustom rawJson rawText ptx pty cw ch genId placed =
      some (placed ++ [{ id := genId
                         x := clamp (ptx - DEFAULT_W / 2) 0 (cw - DEFAULT_W)
                         y := clamp (pty - DEFAULT_H / 2) 0 (ch - DEFAULT_H)
                         w := some DEFAULT_W
                         h := some DEFAULT_H
                         player := payload }])
    ∧ clamp (500 - DEFAULT_W / 2) 0 (3000 - DEFAULT_W) = 370
    ∧ clamp (500 - DEFAULT_H / 2) 0 (2000 - DEFAULT_H) = 454 := by
  refine ⟨?_, by norm_num [clamp, DEFAULT_W, min_def, max_def],
          by norm_num [clamp, DEFAULT_H, min_def, max_def]⟩
  simp [onDropBoard, hp]

/-- Witness for drop_centered_clamped: a drop that decodes through the
text/plain channel lands centered at (370, 454). -/
theorem drop_centered_clamped_witness :
    onDropBoard parseStub true "" "" rawNameA 500 500 3000 2000 "g" [] =
      some (([] : List PlacedPlayer) ++
        [{ id := "g"
           x := clamp (500 - DEFAULT_W / 2) 0 (3000 - DEFAULT_W)
           y := clamp (500 - DEFAULT_H / 2) 0 (2000 - DEFAULT_H)
           w := some DEFAULT_W
           h := some DEFAULT_H
           player := payloadA }]) :=
  (drop_centered_clamped parseStub "" "" rawNameA 500 500 3000 2000 "g" []
    payloadA (by decide)).1

/-- C4: on release of a non-degenerate box-select session the new selection
is exactly the set of entities whose bounding rectangles intersect the
normalized rectangle (cards and objects alike), the two diagonal corners
may be given in either order, and for the three 50×50 items at (0,0),
(100,100), (200,200) with a box spanning (0,0)-(120,120) the selection is
exactly the first two items.  The prior selection is not an input of
boxSelectUp, so the result replaces it unconditionally. -/
theorem box_select_exact (players : List PlacedPlayer) (objects : List BoardObject)
    (x1 y1 x2 y2 : ℚ)
    (hnd : ¬((rectNorm x1 y1 x2 y2).w < 6 ∧ (rectNorm x1 y1 x2 y2).h < 6)) :
    (∀ i : String,
      i ∈ boxSelectUp players objects x1 y1 x2 y2 ↔
        ((∃ p, p ∈ players ∧
            rectIntersects (playerRect p) (selRect (rectNorm x1 y1 x2 y2)) = true ∧
            p.id = i)
         ∨ (∃ o, o ∈ objects ∧
            rectIntersects (objectRect o) (selRect (rectNorm x1 y1 x2 y2)) = true ∧
            o.id = i)))
    ∧ boxSelectUp players objects x1 y1 x2 y2 = boxSelectUp players objects x2 y2 x1 y1
    ∧ boxSelectUp
        [{ id := "i1", x := 0, y := 0, w := some 50, h := some 50 },
         { id := "i2", x := 100, y := 100, w := some 50, h := some 50 },
         { id := "i3", x := 200, y := 200, w := some 50, h := some 50 }]
        [] 0 0 120 120 = ["i1", "i2"] := by
  refine ⟨?_, ?_, ?_⟩
  · intro i
    simp only [boxSelectUp, if_neg hnd, List.mem_append, List.mem_map, List.mem_filter]
    constructor
    · rintro (⟨p, ⟨hp, hint⟩, hid⟩ | ⟨o, ⟨ho, hint⟩, hid⟩)
      · exact Or.inl ⟨p, hp, hint, hid⟩
      · exact Or.inr ⟨o, ho, hint, hid⟩
    · rintro (⟨p, hp, hint, hid⟩ | ⟨o, ho, hint, hid⟩)
      · exact Or.inl ⟨p, ⟨hp, hint⟩, hid⟩
      · exact Or.inr ⟨o, ⟨ho, hint⟩, hid⟩
  · simp only [boxSelectUp]
    rw [rectNorm_comm]
  · norm_num [boxSelectUp, rectNorm, rectIntersects, playerRect, selRect,
      effW, effH, min_def, max_def, List.filter]

/-- Witness for box_select_exact at the concrete three-item example. -/
theorem box_select_exact_witness :
    "i1" ∈ boxSelectUp
        [{ id := "i1", x := 0, y := 0, w := some 50, h := some 50 },
         { id := "i2", x := 100, y := 100, w := some 50, h := some 50 },
         { id := "i3", x := 200, y := 200, w := some 50, h := some 50 }]
        [] 0 0 120 120 ↔
      ((∃ p, p ∈ [({ id := "i1", x := 0, y := 0, w := some 50, h := some 50 } : PlacedPlayer),
                  { id := "i2", x := 100, y := 100, w := some 50, h := some 50 },
                  { id := "i3", x := 200, y := 200, w := some 50, h := some 50 }] ∧
          rectIntersects (playerRect p) (selRect (rectNorm 0 0 120 120)) = true ∧
          p.id = "i1")
       ∨ (∃ o, o ∈ ([] : List BoardObject) ∧
          rectIntersects (objectRect o) (selRect (rectNorm 0 0 120 120)) = true ∧
          o.id = "i1")) :=
  (box_select_exact
    [{ id := "i1", x := 0, y := 0, w := some 50, h := some 50 },
     { id := "i2", x := 100, y := 100, w := some 50, h := some 50 },
     { id := "i3", x := 200, y := 200, w := some 50, h := some 50 }]
    [] 0 0 120 120
    (by norm_num [rectNorm, min_def, max_def])).1 "i1"

/-- C5 (amended): during a multi-select move the same displacement is added
to every entity's origin position, but each result is clamped per entity
into the canvas; effective sizes never change, and relative offsets are
preserved whenever the clamp is inactive for the entities involved (in
particular whenever all target positions are in bounds).  When the clamp
engages asymmetrically, offsets need not be preserved: in
group_move_offsets_cex the committed offset shrinks, and because the
upper clamp bound canvasWidth - w differs per entity an offset can also
grow. -/
theorem group_move_delta :
    (∀ (p : PlacedPlayer) (dx dy cw ch : ℚ),
        effW (moveStep (snapshotOrigin p) dx dy cw ch p) = effW p ∧
        effH (moveStep (snapshotOrigin p) dx dy cw ch p) = effH p)
    ∧ (∀ (op oq : Origin) (dx dy cw ch : ℚ) (p q : PlacedPlayer),
        0 ≤ op.x + dx → op.x + dx ≤ cw - op.w →
        0 ≤ op.y + dy → op.y + dy ≤ ch - op.h →
        0 ≤ oq.x + dx → oq.x + dx ≤ cw - oq.w →
        0 ≤ oq.y + dy → oq.y + dy ≤ ch - oq.h →
        (moveStep op dx dy cw ch p).x - (moveStep oq dx dy cw ch q).x = op.x - oq.x ∧
        (moveStep op dx dy cw ch p).y - (moveStep oq dx dy cw ch q).y = op.y - oq.y) := by
  constructor
  · intro p dx dy cw ch
    simp [moveStep, snapshotOrigin, effW, effH]
  · intro op oq dx dy cw ch p q h1 h2 h3 h4 h5 h6 h7 h8
    simp only [moveStep]
    rw [clamp_eq_self _ _ _ h1 h2, clamp_eq_self _ _ _ h3 h4,
        clamp_eq_self _ _ _ h5 h6, clamp_eq_self _ _ _ h7 h8]
    constructor <;> ring

/-- Witness for group_move_delta: two concrete origins far from the canvas
edge keep their 100-pixel offset. -/
theorem group_move_delta_witness :
    (moveStep ⟨500, 500, 260, 92⟩ (-50) 10 3000 2000 { id := "a", x := 0, y := 0 }).x
      - (moveStep ⟨600, 500, 260, 92⟩ (-50) 10 3000 2000 { id := "b", x := 0, y := 0 }).x
      = (500 : ℚ) - 600 :=
  ((group_move_delta.2 ⟨500, 500, 260, 92⟩ ⟨600, 500, 260, 92⟩ (-50) 10 3000 2000
    { id := "a", x := 0, y := 0 } { id := "b", x := 0, y := 0 }
    (by norm_num) (by norm_num) (by norm_num) (by norm_num)
    (by norm_num) (by norm_num) (by norm_num) (by norm_num)).1)

/-- The two concrete cards of the C5 counterexample: same size, 100 pixels
apart, the left one flush against the canvas edge. -/
def cexCardA : PlacedPlayer := { id := "a", x := 0, y := 0, w := some 260, h := some 92 }

/-- Second card of the C5 counterexample. -/
def cexCardB : PlacedPlayer := { id := "b", x := 100, y := 0, w := some 260, h := some 92 }

/-- Counterexample to C5 as stated: dragging both cards 50 pixels left
clamps the left card at the edge (displacement 0) while the right card
moves the full -50, so the committed offset shrinks from 100 to 50 —
relative offsets are not preserved. -/
theorem group_move_offsets_cex :
    (moveCommit (beginMoveOrigins ["a", "b"] [cexCardA, cexCardB]) (-50) 0 3000 2000
        [cexCardA, cexCardB]).map PlacedPlayer.x = [0, 50]
    ∧ cexCardB.x - cexCardA.x = 100
    ∧ ((50 : ℚ) - 0 ≠ 100) := by
  refine ⟨?_, by norm_num [cexCardA, cexCardB], by norm_num⟩
  have ha : beginMoveOrigins ["a", "b"] [cexCardA, cexCardB] "a"
      = some ⟨0, 0, 260, 92⟩ := by decide
  have hb : beginMoveOrigins ["a", "b"] [cexCardA, cexCardB] "b"
      = some ⟨100, 0, 260, 92⟩ := by decide
  have hida : cexCardA.id = "a" := rfl
  have hidb : cexCardB.id = "b" := rfl
  norm_num [moveCommit, hida, hidb, ha, hb, moveStep, clamp,
    min_def, max_def]

/-- C6: a resize commit changes only the one target entity, whose new width
and height are origin size plus pointer delta clamped per axis between
the minimum size and the room left by the origin position; the target's
position and every other entity are untouched.  Width depends only on the
x-delta and height only on the y-delta (no aspect-ratio coupling), as the
clamp formulas show. -/
theorem resize_single_target (id : String) (o : Origin) (dx dy cw ch : ℚ)
    (placed : List PlacedPlayer) (objects : List BoardObject) :
    List.Forall₂ (fun p q =>
        q.x = p.x ∧ q.y = p.y ∧ q.id = p.id ∧ q.player = p.player ∧
        (p.id ≠ id → q = p) ∧
        (p.id = id →
          q.w = some (clamp (o.w + dx) MIN_W (cw - o.x)) ∧
          q.h = some (clamp (o.h + dy) MIN_H (ch - o.y))))
      placed (resizeCommit id o dx dy cw ch placed)
    ∧ List.Forall₂ (fun b c =>
        c.x = b.x ∧ c.y = b.y ∧ c.id = b.id ∧ c.kind = b.kind ∧
        (b.id ≠ id → c = b) ∧
        (b.id = id →
          c.w = clamp (o.w + dx) OBJ_MIN_W (cw - o.x) ∧
          c.h = clamp (o.h + dy) OBJ_MIN_H (ch - o.y)))
      objects (objResizeCommit id o dx dy cw ch objects) := by
  constructor
  · rw [resizeCommit_eq_map]
    induction placed with
    | nil => exact List.Forall₂.nil
    | cons p ps ih =>
        simp only [List.map_cons]
        refine List.Forall₂.cons ?_ ih
        by_cases hpi : p.id = id
        · simp [hpi, resizeStep]
        · simp [hpi]
  · rw [objResizeCommit_eq_map]
    induction objects with
    | nil => exact List.Forall₂.nil
    | cons b bs ih =>
        simp only [List.map_cons]
        refine List.Forall₂.cons ?_ ih
        by_cases hbi : b.id = id
        · simp [hbi, objResizeStep]
        · simp [hbi]

/-- Witness for resize_single_target on a concrete two-card list. -/
theorem resize_single_target_witness :
    List.Forall₂ (fun p q =>
        q.x = p.x ∧ q.y = p.y ∧ q.id = p.id ∧ q.player = p.player ∧
        (p.id ≠ "t" → q = p) ∧
        (p.id = "t" →
          q.w = some (clamp ((260 : ℚ) + 5) MIN_W (3000 - 1)) ∧
          q.h = some (clamp ((92 : ℚ) + 7) MIN_H (2000 - 2))))
      [{ id := "t", x := 1, y := 2 }, { id := "u", x := 9, y := 9 }]
      (resizeCommit "t" ⟨1, 2, 260, 92⟩ 5 7 3000 2000
        [{ id := "t", x := 1, y := 2 }, { id := "u", x := 9, y := 9 }]) :=
  (resize_single_target "t" ⟨1, 2, 260, 92⟩ 5 7 3000 2000
    [{ id := "t", x := 1, y := 2 }, { id := "u", x := 9, y := 9 }] []).1

/-- toggle-selection of part_001 lines 216-226 / part_003 lines 301-310:
copy the set, delete the id if present else add it, and fall back to the
singleton when the result would be empty. -/
def toggleSelect (cur : Finset String) (id : String) : Finset String :=
  let next := if id ∈ cur then cur.erase id else insert id cur
  if next.Nonempty then next else {id}

/-- C8: a toggle-modifier click adds an absent id, removes a present one,
and never leaves the selection empty: removing the last member yields the
singleton of the clicked id instead. -/
theorem toggle_selection_rules (cur : Finset String) (id : String) :
    (id ∉ cur → toggleSelect cur id = insert id cur)
    ∧ (id ∈ cur → cur.erase id ≠ ∅ → toggleSelect cur id = cur.erase id)
    ∧ (id ∈ cur → cur.erase id = ∅ → toggleSelect cur id = {id})
    ∧ toggleSelect cur id ≠ ∅ := by
  refine ⟨?_, ?_, ?_, ?_⟩
  · intro h
    simp only [toggleSelect, if_neg h]
    rw [if_pos (Finset.insert_nonempty id cur)]
  · intro h hne
    simp only [toggleSelect, if_pos h]
    rw [if_pos (Finset.nonempty_iff_ne_empty.mpr hne)]
  · intro h he
    simp only [toggleSelect, if_pos h]
    rw [if_neg (by simp [he])]
  · by_cases h : id ∈ cur
    · by_cases he : cur.erase id = ∅
      · rw [(by
          simp only [toggleSelect, if_pos h]
          rw [if_neg (by simp [he])] :
            toggleSelect cur id = {id})]
        simp
      · rw [(by
          simp only [toggleSelect, if_pos h]
          rw [if_pos (Finset.nonempty_iff_ne_empty.mpr he)] :
            toggleSelect cur id = cur.erase id)]
        exact he
    · rw [(by
        simp only [toggleSelect, if_neg h]
        rw [if_pos (Finset.insert_nonempty id cur)] :
          toggleSelect cur id = insert id cur)]
      simp

/-- Witness for toggle_selection_rules: toggling "a" off a two-element set
removes it; toggling "a" off the singleton keeps it selected. -/
theorem toggle_selection_rules_witness :
    toggleSelect {"a", "b"} "a" = ({"a", "b"} : Finset String).erase "a"
    ∧ toggleSelect {"a"} "a" = {"a"} :=
  ⟨(toggle_selection_rules {"a", "b"} "a").2.1 (by decide) (by decide),
   (toggle_selection_rules {"a"} "a").2.2.1 (by decide) (by decide)⟩

/-! The part_001 drag session.  Events are modelled pre-filtered to the
pointer that owns the session (the source's pointerId check, line 363) and
to the non-touch path (the two-finger branch, lines 332-358, requires a
second touch pointer).  clientToBoard subtracts the canvas rectangle's
left/top, passed in as rL / rT. -/

/-- Gesture mode of a part_001 DragState (box mode exists only in part_003
and commits nothing on move). -/
inductive DragMode | move | resize
deriving DecidableEq

/-- The DragState of part_001 lines 189-208: id list, mode, start point in
board coordinates, moved flag, last client position and the per-card
origin snapshot (a Record modelled as a lookup function). -/
structure DragState where
  ids : List String
  mode : DragMode
  startX : ℚ
  startY : ℚ
  moved : Bool
  lastClientX : ℚ
  lastClientY : ℚ
  origin : String → Option Origin

/-- The DragState built by beginMove (part_001 lines 277-289). -/
def beginMoveState (rL rT scx scy : ℚ) (ids : List String)
    (origin : String → Option Origin) : DragState :=
  { ids := ids, mode := DragMode.move
    startX := scx - rL, startY := scy - rT
    moved := false, lastClientX := scx, lastClientY := scy
    origin := origin }

/-- onPointerMove of part_001 lines 361-403 (drag branch): update the moved
flag when the incremental client distance exceeds 2 pixels (compared on
squares, Math.hypot(a,b) > 2 iff a² + b² > 4), then commit through the
change callback — the returned Option is the array passed to
onPlacedChange, some on every move-mode event and on every resize-mode
event whose origin lookup succeeds.  The early returns of the resize arm
skip the trailing lastClientX/Y update exactly as in the source. -/
def onPointerMove1 (cw ch rL rT : ℚ) (placed : List PlacedPlayer)
    (d : DragState) (cx cy : ℚ) : DragState × Option (List PlacedPlayer) :=
  let ptx := cx - rL
  let pty := cy - rT
  let d1 := { d with
    moved := d.moved || decide ((cx - d.lastClientX) * (cx - d.lastClientX)
      + (cy - d.lastClientY) * (cy - d.lastClientY) > 4) }
  if d1.mode = DragMode.move then
    ({ d1 with lastClientX := cx, lastClientY := cy },
     some (moveCommit d1.origin (ptx - d1.startX) (pty - d1.startY) cw ch placed))
  else
    match d1.ids.head? with
    | none => (d1, none)
    | some i =>
        match d1.origin i with
        | none => (d1, none)
        | some o =>
            ({ d1 with lastClientX := cx, lastClientY := cy },
             some (resizeCommit i o (ptx - d1.startX) (pty - d1.startY) cw ch placed))

/-- onPointerUp of part_001 lines 416-427: no commit is made; when the
session never crossed the movement threshold and targets a single id, the
matching card is passed to onOpenPlayer (the returned Option). -/
def onPointerUp1 (placed : List PlacedPlayer) (d : DragState) : Option PlacedPlayer :=
  if d.moved = false ∧ d.ids.length = 1 then
    match d.ids.head? with
    | none => none
    | some i => placed.find? (fun p => p.id = i)
  else none

/-- Run the pointer-move events of a session in order, collecting every
array the engine passes to the change callback.  The caller-held placed
array stays fixed across the session: move commits are computed from the
origin snapshot, so echoing commits back through the controlled prop does
not change the arithmetic. -/
def runMoves1 (cw ch rL rT : ℚ) (placed : List PlacedPlayer) (d : DragState) :
    List (ℚ × ℚ) → DragState × List (List PlacedPlayer)
  | [] => (d, [])
  | m :: ms =>
      let r := onPointerMove1 cw ch rL rT placed d m.1 m.2
      let rest := runMoves1 cw ch rL rT placed r.1 ms
      (rest.1, r.2.toList ++ rest.2)

/-- A whole part_001 gesture: the commits of all pointer-moves, and the card
(if any) handed to onOpenPlayer at pointer-up. -/
def runSession1 (cw ch rL rT : ℚ) (placed : List PlacedPlayer) (d0 : DragState)
    (moves : List (ℚ × ℚ)) : List (List PlacedPlayer) × Option PlacedPlayer :=
  let r := runMoves1 cw ch rL rT placed d0 moves
  (r.2, onPointerUp1 placed r.1)

/-- Whether any pointer-move step of the session exceeds the 2-pixel
incremental threshold (squared distances, chained from the previous
event's client position). -/
def anyStepOver (lx ly : ℚ) : List (ℚ × ℚ) → Bool
  | [] => false
  | m :: ms =>
      decide ((m.1 - lx) * (m.1 - lx) + (m.2 - ly) * (m.2 - ly) > 4)
        || anyStepOver m.1 m.2 ms

theorem runMoves1_move_spec (cw ch rL rT : ℚ) (placed : List PlacedPlayer)
    (moves : List (ℚ × ℚ)) : ∀ d : DragState, d.mode = DragMode.move →
    (runMoves1 cw ch rL rT placed d moves).1.mode = DragMode.move ∧
    (runMoves1 cw ch rL rT placed d moves).1.ids = d.ids ∧
    (runMoves1 cw ch rL rT placed d moves).1.moved
      = (d.moved || anyStepOver d.lastClientX d.lastClientY moves) ∧
    (runMoves1 cw ch rL rT placed d moves).2.length = moves.length := by
  induction moves with
  | nil =>
      intro d hd
      simp [runMoves1, anyStepOver, hd]
  | cons m ms ih =>
      intro d hd
      have hstep : onPointerMove1 cw ch rL rT placed d m.1 m.2
          = ({ d with
                moved := d.moved || decide ((m.1 - d.lastClientX) * (m.1 - d.lastClientX)
                  + (m.2 - d.lastClientY) * (m.2 - d.lastClientY) > 4)
                lastClientX := m.1, lastClientY := m.2 },
             some (moveCommit d.origin ((m.1 - rL) - d.startX) ((m.2 - rT) - d.startY)
               cw ch placed)) := by
        simp [onPointerMove1, hd]
      have ih2 := ih { d with
          moved := d.moved || decide ((m.1 - d.lastClientX) * (m.1 - d.lastClientX)
            + (m.2 - d.lastClientY) * (m.2 - d.lastClientY) > 4)
          lastClientX := m.1, lastClientY := m.2 } hd
      simp only [runMoves1, hstep, Option.toList_some, List.length_cons,
        List.singleton_append] at *
      refine ⟨ih2.1, ih2.2.1, ?_, by omega⟩
      rw [ih2.2.2.1]
      simp only [anyStepOver]
      rw [Bool.or_assoc]

/-- C9 (amended): in a single-card move session every pointer-move event
commits through the change callback (so a sub-2-pixel move still commits
a position, and a session with no pointer-move event commits nothing);
onOpenPlayer fires at release exactly when no single pointer-move step
exceeded the 2-pixel incremental threshold — the threshold is per event,
not on total movement. -/
theorem click_vs_drag_threshold (cw ch rL rT scx scy : ℚ) (pid : String)
    (placed : List PlacedPlayer) (moves : List (ℚ × ℚ)) (c : PlacedPlayer)
    (hfind : placed.find? (fun p => p.id = pid) = some c) :
    (runSession1 cw ch rL rT placed
        (beginMoveState rL rT scx scy [pid] (beginMoveOrigins [pid] placed)) moves).1.length
      = moves.length
    ∧ (anyStepOver scx scy moves = false →
        (runSession1 cw ch rL rT placed
          (beginMoveState rL rT scx scy [pid] (beginMoveOrigins [pid] placed)) moves).2
          = some c)
    ∧ (anyStepOver scx scy moves = true →
        (runSession1 cw ch rL rT placed
          (beginMoveState rL rT scx scy [pid] (beginMoveOrigins [pid] placed)) moves).2
          = none) := by
  have hspec := runMoves1_move_spec cw ch rL rT placed moves
    (beginMoveState rL rT scx scy [pid] (beginMoveOrigins [pid] placed)) rfl
  refine ⟨hspec.2.2.2, ?_, ?_⟩
  · intro hquiet
    simp only [runSession1, onPointerUp1, hspec.2.1]
    rw [(by rw [hspec.2.2.1]; simp [beginMoveState, hquiet] :
      (runMoves1 cw ch rL rT placed
        (beginMoveState rL rT scx scy [pid] (beginMoveOrigins [pid] placed)) moves).1.moved
        = false)]
    simp [beginMoveState, hfind]
  · intro hloud
    simp only [runSession1, onPointerUp1, hspec.2.1]
    rw [(by rw [hspec.2.2.1]; simp [beginMoveState, hloud] :
      (runMoves1 cw ch rL rT placed
        (beginMoveState rL rT scx scy [pid] (beginMoveOrigins [pid] placed)) moves).1.moved
        = true)]
    simp

/-- Witness for click_vs_drag_threshold: a down/up pair with no pointer-move
event opens the card and commits nothing. -/
theorem click_vs_drag_threshold_witness :
    (runSession1 3000 2000 0 0 [{ id := "t", x := 5, y := 5 }]
        (beginMoveState 0 0 10 10 ["t"]
          (beginMoveOrigins ["t"] [{ id := "t", x := 5, y := 5 }])) []).1.length = 0
    ∧ (runSession1 3000 2000 0 0 [{ id := "t", x := 5, y := 5 }]
        (beginMoveState 0 0 10 10 ["t"]
          (beginMoveOrigins ["t"] [{ id := "t", x := 5, y := 5 }])) []).2
        = some { id := "t", x := 5, y := 5 } :=
  ⟨(click_vs_drag_threshold 3000 2000 0 0 10 10 "t" [{ id := "t", x := 5, y := 5 }] []
      { id := "t", x := 5, y := 5 } (by decide)).1,
   (click_vs_drag_threshold 3000 2000 0 0 10 10 "t" [{ id := "t", x := 5, y := 5 }] []
      { id := "t", x := 5, y := 5 } (by decide)).2.1 (by decide)⟩

/-- Counterexample to C9 as stated: a session with a single 1-pixel
pointer-move (total movement 1px < 2px) still commits a position change —
onPlacedChange receives an array on that move — while also opening the
card; and a session of six 2-pixel steps totalling 12px (> 10px) opens
the card anyway, because the threshold is applied per event. -/
theorem click_commits_cex :
    ((runSession1 3000 2000 0 0 [{ id := "t", x := 100, y := 100 }]
        (beginMoveState 0 0 10 10 ["t"]
          (beginMoveOrigins ["t"] [{ id := "t", x := 100, y := 100 }]))
        [(11, 10)]).1.length = 1
      ∧ ((runSession1 3000 2000 0 0 [{ id := "t", x := 100, y := 100 }]
          (beginMoveState 0 0 10 10 ["t"]
            (beginMoveOrigins ["t"] [{ id := "t", x := 100, y := 100 }]))
          [(11, 10)]).2).isSome = true)
    ∧ (((runSession1 3000 2000 0 0 [{ id := "t", x := 100, y := 100 }]
          (beginMoveState 0 0 0 0 ["t"]
            (beginMoveOrigins ["t"] [{ id := "t", x := 100, y := 100 }]))
          [(2, 0), (4, 0), (6, 0), (8, 0), (10, 0), (12, 0)]).2).isSome = true
      ∧ (runSession1 3000 2000 0 0 [{ id := "t", x := 100, y := 100 }]
          (beginMoveState 0 0 0 0 ["t"]
            (beginMoveOrigins ["t"] [{ id := "t", x := 100, y := 100 }]))
          [(2, 0), (4, 0), (6, 0), (8, 0), (10, 0), (12, 0)]).1.length = 6) := by
  have hf : [({ id := "t", x := 100, y := 100 } : PlacedPlayer)].find?
      (fun p => p.id = "t") = some { id := "t", x := 100, y := 100 } := by decide
  have h1 := runMoves1_move_spec 3000 2000 0 0 [{ id := "t", x := 100, y := 100 }]
    [(11, 10)]
    (beginMoveState 0 0 10 10 ["t"]
      (beginMoveOrigins ["t"] [{ id := "t", x := 100, y := 100 }])) rfl
  have h2 := runMoves1_move_spec 3000 2000 0 0 [{ id := "t", x := 100, y := 100 }]
    [(2, 0), (4, 0), (6, 0), (8, 0), (10, 0), (12, 0)]
    (beginMoveState 0 0 0 0 ["t"]
      (beginMoveOrigins ["t"] [{ id := "t", x := 100, y := 100 }])) rfl
  refine ⟨⟨h1.2.2.2, ?_⟩, ?_, h2.2.2.2⟩
  · have hm : (runMoves1 3000 2000 0 0 [{ id := "t", x := 100, y := 100 }]
        (beginMoveState 0 0 10 10 ["t"]
          (beginMoveOrigins ["t"] [{ id := "t", x := 100, y := 100 }]))
        [(11, 10)]).1.moved = false := by
      rw [h1.2.2.1]
      norm_num [beginMoveState, anyStepOver]
    simp only [runSession1, onPointerUp1, h1.2.1, hm]
    simp [beginMoveState, hf]
  · have hm : (runMoves1 3000 2000 0 0 [{ id := "t", x := 100, y := 100 }]
        (beginMoveState 0 0 0 0 ["t"]
          (beginMoveOrigins ["t"] [{ id := "t", x := 100, y := 100 }]))
        [(2, 0), (4, 0), (6, 0), (8, 0), (10, 0), (12, 0)]).1.moved = false := by
      rw [h2.2.2.1]
      norm_num [beginMoveState, anyStepOver]
    simp only [runSession1, onPointerUp1, h2.2.1, hm]
    simp [beginMoveState, hf]

/-! The src/lib/board/HtmlBoard.tsx variant: pointer-moves only update the
rAF-throttled local preview, and the single commit happens on pointer-up.
The rafPending flag and the preview state are render-only and carry no
commit, so they are not part of the drag state here; events are again
pre-filtered to the owning pointer id. -/

/-- The payload snapshot stored on a card in the lib variant
(CanvasPlayer). -/
structure CanvasPlayer where
  playerId : String := ""
  name : String := ""
  grade : Option String := none
  returning : Option String := none
  primary : Option String := none
  likelihood : Option String := none
  pos1 : Option String := none
  pos2 : Option String := none
  pictureUrl : Option String := none
deriving DecidableEq

/-- A placed card of the lib variant: width and height are required. -/
structure LibPlacedPlayer where
  id : String
  player : CanvasPlayer := {}
  x : ℚ
  y : ℚ
  w : ℚ
  h : ℚ
deriving DecidableEq

/-- The draggingRef state of the lib variant (lines 131-139). -/
structure LibDrag where
  id : String
  dx : ℚ
  dy : ℚ
  nextX : ℚ
  nextY : ℚ
deriving DecidableEq

/-- beginMove of the lib variant (lines 193-217): grab offset from the
card's corner, preview seeded at the card's position. -/
def libBeginMove (placed : List LibPlacedPlayer) (rL rT cx cy : ℚ)
    (id : String) : Option LibDrag :=
  match placed.find? (fun p => p.id = id) with
  | none => none
  | some card =>
      some { id := id, dx := (cx - rL) - card.x, dy := (cy - rT) - card.y
             nextX := card.x, nextY := card.y }

/-- onMove of the lib variant (lines 233-256): update the pending clamped
position and schedule a preview repaint; the change callback is never
invoked (the second component is always none). -/
def libOnMove (placed : List LibPlacedPlayer) (bw bh rL rT : ℚ) (d : LibDrag)
    (cx cy : ℚ) : LibDrag × Option (List LibPlacedPlayer) :=
  let card := placed.find? (fun p => p.id = d.id)
  let w := match card with | some c => c.w | none => LIB_DEFAULT_W
  let h := match card with | some c => c.h | none => LIB_DEFAULT_H
  let ptx := cx - rL
  let pty := cy - rT
  ({ d with nextX := clamp (ptx - d.dx) 0 (bw - w)
            nextY := clamp (pty - d.dy) 0 (bh - h) }, none)

/-- onUp of the lib variant (lines 258-278): commit the last pending
position for the dragged card, exactly once, unless the card vanished. -/
def libOnUp (placed : List LibPlacedPlayer) (d : LibDrag) :
    Option (List LibPlacedPlayer) :=
  match placed.find? (fun p => p.id = d.id) with
  | none => none
  | some card =>
      some (placed.map fun p =>
        if p.id = card.id then { p with x := d.nextX, y := d.nextY } else p)

/-- Run the pointer-moves of a lib-variant session, collecting commits. -/
def libRunMoves (placed : List LibPlacedPlayer) (bw bh rL rT : ℚ) (d : LibDrag) :
    List (ℚ × ℚ) → LibDrag × List (List LibPlacedPlayer)
  | [] => (d, [])
  | m :: ms =>
      let r := libOnMove placed bw bh rL rT d m.1 m.2
      let rest := libRunMoves placed bw bh rL rT r.1 ms
      (rest.1, r.2.toList ++ rest.2)

/-- All arrays a lib-variant gesture passes to the change callback: those of
the intermediate moves followed by the pointer-up commit. -/
def libSessionCommits (placed : List LibPlacedPlayer) (bw bh rL rT : ℚ)
    (d0 : LibDrag) (moves : List (ℚ × ℚ)) : List (List LibPlacedPlayer) :=
  let r := libRunMoves placed bw bh rL rT d0 moves
  r.2 ++ (libOnUp placed r.1).toList

theorem libRunMoves_spec (placed : List LibPlacedPlayer) (bw bh rL rT : ℚ)
    (moves : List (ℚ × ℚ)) : ∀ d : LibDrag,
    (libRunMoves placed bw bh rL rT d moves).1.id = d.id ∧
    (libRunMoves placed bw bh rL rT d moves).2 = [] := by
  induction moves with
  | nil => intro d; simp [libRunMoves]
  | cons m ms ih =>
      intro d
      have ih2 := ih ((libOnMove placed bw bh rL rT d m.1 m.2).1)
      simp only [libRunMoves, libOnMove, Option.toList_none, List.nil_append] at *
      exact ih2

theorem runMoves1_resize_spec (cw ch rL rT : ℚ) (placed : List PlacedPlayer)
    (moves : List (ℚ × ℚ)) : ∀ (d : DragState) (i : String) (o : Origin),
    d.mode = DragMode.resize → d.ids.head? = some i → d.origin i = some o →
    (runMoves1 cw ch rL rT placed d moves).2.length = moves.length := by
  induction moves with
  | nil =>
      intro d i o hd hi ho
      simp [runMoves1]
  | cons m ms ih =>
      intro d i o hd hi ho
      have hstep : onPointerMove1 cw ch rL rT placed d m.1 m.2
          = ({ d with
                moved := d.moved || decide ((m.1 - d.lastClientX) * (m.1 - d.lastClientX)
                  + (m.2 - d.lastClientY) * (m.2 - d.lastClientY) > 4)
                lastClientX := m.1, lastClientY := m.2 },
             some (resizeCommit i o ((m.1 - rL) - d.startX) ((m.2 - rT) - d.startY)
               cw ch placed)) := by
        simp [onPointerMove1, hd, hi, ho]
      have ih2 := ih { d with
          moved := d.moved || decide ((m.1 - d.lastClientX) * (m.1 - d.lastClientX)
            + (m.2 - d.lastClientY) * (m.2 - d.lastClientY) > 4)
          lastClientX := m.1, lastClientY := m.2 } i o hd hi ho
      simp only [runMoves1, hstep, Option.toList_some, List.length_cons,
        List.singleton_append]
      omega

/-- C2 (amended): in the src/lib/board/HtmlBoard.tsx variant no pointer-move
invokes the change callback and a gesture on an existing card commits
exactly once, on pointer-up.  In the part_001 variant, by contrast, every
move-mode pointer-move event invokes the change callback, as does every
resize-mode pointer-move event whose origin snapshot contains the target
id (beginResize always arranges this); at session level the commits of
both a move gesture and such a resize gesture number exactly one per
pointer-move event — pointer-up contributes none. -/
theorem commit_once_per_gesture_lib :
    (∀ (placed : List LibPlacedPlayer) (bw bh rL rT : ℚ) (d : LibDrag) (cx cy : ℚ),
        (libOnMove placed bw bh rL rT d cx cy).2 = none)
    ∧ (∀ (placed : List LibPlacedPlayer) (bw bh rL rT : ℚ) (d0 : LibDrag)
          (moves : List (ℚ × ℚ)) (c : LibPlacedPlayer),
        placed.find? (fun p => p.id = d0.id) = some c →
        (libSessionCommits placed bw bh rL rT d0 moves).length = 1)
    ∧ (∀ (cw ch rL rT : ℚ) (placed : List PlacedPlayer) (d : DragState) (cx cy : ℚ),
        d.mode = DragMode.move →
        ((onPointerMove1 cw ch rL rT placed d cx cy).2).isSome = true)
    ∧ (∀ (cw ch rL rT : ℚ) (placed : List PlacedPlayer) (d : DragState) (cx cy : ℚ)
          (i : String) (o : Origin),
        d.mode = DragMode.resize → d.ids.head? = some i → d.origin i = some o →
        ((onPointerMove1 cw ch rL rT placed d cx cy).2).isSome = true)
    ∧ (∀ (cw ch rL rT : ℚ) (placed : List PlacedPlayer) (d0 : DragState)
          (moves : List (ℚ × ℚ)),
        d0.mode = DragMode.move →
        (runSession1 cw ch rL rT placed d0 moves).1.length = moves.length)
    ∧ (∀ (cw ch rL rT : ℚ) (placed : List PlacedPlayer) (d0 : DragState)
          (moves : List (ℚ × ℚ)) (i : String) (o : Origin),
        d0.mode = DragMode.resize → d0.ids.head? = some i → d0.origin i = some o →
        (runSession1 cw ch rL rT placed d0 moves).1.length = moves.length) := by
  refine ⟨fun _ _ _ _ _ _ _ _ => rfl, ?_, ?_, ?_, ?_, ?_⟩
  · intro placed bw bh rL rT d0 moves c hfind
    have hspec := libRunMoves_spec placed bw bh rL rT moves d0
    simp only [libSessionCommits, hspec.2, List.nil_append, libOnUp, hspec.1, hfind]
    simp
  · intro cw ch rL rT placed d cx cy hd
    simp [onPointerMove1, hd]
  · intro cw ch rL rT placed d cx cy i o hd hi ho
    simp [onPointerMove1, hd, hi, ho]
  · intro cw ch rL rT placed d0 moves hd
    exact (runMoves1_move_spec cw ch rL rT placed moves d0 hd).2.2.2
  · intro cw ch rL rT placed d0 moves i o hd hi ho
    exact runMoves1_resize_spec cw ch rL rT placed moves d0 i o hd hi ho

/-- Witness for commit_once_per_gesture_lib: a concrete two-move lib gesture
commits exactly once, while a concrete two-move part_001 resize gesture
commits twice (once per pointer-move). -/
theorem commit_once_per_gesture_lib_witness :
    (libSessionCommits [{ id := "t", x := 1, y := 2, w := 280, h := 96 }]
        3000 2000 0 0 { id := "t", dx := 0, dy := 0, nextX := 1, nextY := 2 }
        [(5, 5), (9, 9)]).length = 1
    ∧ (runSession1 3000 2000 0 0 [{ id := "t", x := 1, y := 2 }]
        { ids := ["t"], mode := DragMode.resize, startX := 10, startY := 10
          moved := false, lastClientX := 10, lastClientY := 10
          origin := fun i => if i = "t" then some ⟨1, 2, 260, 92⟩ else none }
        [(5, 5), (9, 9)]).1.length = 2 :=
  ⟨commit_once_per_gesture_lib.2.1
    [{ id := "t", x := 1, y := 2, w := 280, h := 96 }] 3000 2000 0 0
    { id := "t", dx := 0, dy := 0, nextX := 1, nextY := 2 } [(5, 5), (9, 9)]
    { id := "t", x := 1, y := 2, w := 280, h := 96 } (by decide),
   commit_once_per_gesture_lib.2.2.2.2.2 3000 2000 0 0
    [{ id := "t", x := 1, y := 2 }]
    { ids := ["t"], mode := DragMode.resize, startX := 10, startY := 10
      moved := false, lastClientX := 10, lastClientY := 10
      origin := fun i => if i = "t" then some ⟨1, 2, 260, 92⟩ else none }
    [(5, 5), (9, 9)] "t" ⟨1, 2, 260, 92⟩ rfl rfl (by decide)⟩

/-- Counterexample to C2 as stated: in part_001 a single intermediate
pointer-move during a move session already invokes onPlacedChange with
the updated array — the commit does not wait for pointer-up. -/
theorem pointer_move_commits_cex :
    (onPointerMove1 3000 2000 0 0 [{ id := "t", x := 100, y := 100 }]
        (beginMoveState 0 0 10 10 ["t"]
          (beginMoveOrigins ["t"] [{ id := "t", x := 100, y := 100 }]))
        50 50).2
      = some [{ id := "t", x := 140, y := 140, w := some 260, h := some 92 }] := by
  have ht : beginMoveOrigins ["t"] [{ id := "t", x := 100, y := 100 }] "t"
      = some ⟨100, 100, 260, 92⟩ := by decide
  have hid : ({ id := "t", x := 100, y := 100 } : PlacedPlayer).id = "t" := rfl
  norm_num [onPointerMove1, beginMoveState, moveCommit, hid, ht, moveStep,
    clamp, min_def, max_def]

/-- C7 (amended): the decoder reads the custom channel, then
application/json, then text/plain in that fixed order and accepts the
first candidate that parses — with no check for a name or id field; when
no candidate parses it returns null rather than throwing; and a drop
exposing only the text/plain channel with valid JSON carrying a name
still decodes and produces a PlacedItem. -/
theorem payload_decode_priority :
    (∀ (parse : String → Option PlayerPayload) (c j t : String) (p : PlayerPayload),
        c ≠ "" → parse c = some p → readPayload parse c j t = some p)
    ∧ (∀ (parse : String → Option PlayerPayload) (c j t : String) (p : PlayerPayload),
        (c = "" ∨ parse c = none) → j ≠ "" → parse j = some p →
        readPayload parse c j t = some p)
    ∧ (∀ (parse : String → Option PlayerPayload) (c j t : String) (p : PlayerPayload),
        (c = "" ∨ parse c = none) → (j = "" ∨ parse j = none) →
        t ≠ "" → parse t = some p → readPayload parse c j t = some p)
    ∧ (∀ (parse : String → Option PlayerPayload) (c j t : String),
        (c = "" ∨ parse c = none) → (j = "" ∨ parse j = none) →
        (t = "" ∨ parse t = none) → readPayload parse c j t = none)
    ∧ (readPayload parseStub "" "" rawNameA = some payloadA
        ∧ payloadA.name = some "A"
        ∧ (onDropBoard parseStub true "" "" rawNameA 500 500 3000 2000 "g" []).isSome
            = true) := by
  refine ⟨?_, ?_, ?_, ?_, ?_⟩
  · intro parse c j t p hc hp
    simp [readPayload, if_neg hc, hp]
  · intro parse c j t p hc hj hp
    rcases hc with hc | hc
    · simp [readPayload, hc, if_neg hj, hp]
    · simp [readPayload, hc, if_neg hj, hp]
  · intro parse c j t p hc hj ht hp
    rcases hc with hc | hc <;> rcases hj with hj | hj <;>
      simp [readPayload, hc, hj, if_neg ht, hp]
  · intro parse c j t hc hj ht
    rcases hc with hc | hc <;> rcases hj with hj | hj <;>
      rcases ht with ht | ht <;> simp [readPayload, hc, hj, ht]
  · refine ⟨by decide, by decide, ?_⟩
    rw [(drop_centered_clamped parseStub "" "" rawNameA 500 500 3000 2000 "g" []
      payloadA (by decide)).1]
    rfl

/-- Witness for payload_decode_priority: custom channel wins when it parses;
text channel is reached when the others are absent. -/
theorem payload_decode_priority_witness :
    readPayload parseStub rawNameA "" rawEmptyObj = some payloadA
    ∧ readPayload parseStub "" "" rawNameA = some payloadA :=
  ⟨payload_decode_priority.1 parseStub rawNameA "" rawEmptyObj payloadA
      (by decide) (by decide),
   payload_decode_priority.2.2.1 parseStub "" "" rawNameA payloadA
      (Or.inl rfl) (Or.inl rfl) (by decide) (by decide)⟩

/-- Counterexample to C7 as stated: with the custom channel carrying the
empty JSON object and the text channel carrying an object with a name,
the decoder returns the field-less custom candidate — it accepts a
candidate with neither name nor id and never falls through to the
qualifying text candidate. -/
theorem payload_decode_accepts_fieldless_cex :
    readPayload parseStub rawEmptyObj "" rawNameA = some ({} : PlayerPayload)
    ∧ ({} : PlayerPayload).name = none
    ∧ ({} : PlayerPayload).id = none
    ∧ parseStub rawNameA = some payloadA
    ∧ payloadA.name = some "A" := by
  decide

end SoccerBoard
